import Mathlib

/-!
Shallow embedding of the sale-transaction and aggregation logic of the
inventory application (src/routes/index.js, src/models/Producto.js).

Product ids and category ids (Mongo ObjectIds) are modelled as `Nat`.
Numeric fields (`precio`, `cantidad`) are modelled as `Int`: Mongo's
`$inc` update used in the checkout commit phase is unconditional, so the
embedding must be able to represent the resulting values faithfully.
Monetary values are exact integers here; no claim depends on floating
point rounding.

Failure of a storage write (a thrown promise rejection in the source) is
modelled by an explicit fault parameter: for the cart checkout a single
flag (any write inside the mongoose session transaction throwing, which the
source answers with `abortTransaction`), and for the quick sale an
enumeration of which of its two independent `save()` calls throws.
-/

namespace Inventario

/-- A product document as declared in `src/models/Producto.js`. -/
structure Producto where
  _id : Nat
  nombre : String
  precio : Int
  cantidad : Int
  categoriaID : Nat
deriving DecidableEq, Repr

/-- A category document (`_id` plus unique display name `nombre`). -/
structure Categoria where
  _id : Nat
  nombre : String
deriving DecidableEq, Repr

/-- One line of the request body `cart` consumed by `/ventas/finalizar`:
the source reads `item.id` and `item.cantidad`. -/
structure CartItem where
  id : Nat
  cantidad : Int
deriving DecidableEq, Repr

/-- One element of `productosVendidos` as built by the routes. -/
structure ItemVendido where
  productoID : Nat
  nombre : String
  precioUnitario : Int
  cantidad : Int
  subtotal : Int
deriving DecidableEq, Repr

/-- A sale document (`Venta`) as constructed by the routes: the list of
sold items and the total. -/
structure Venta where
  productosVendidos : List ItemVendido
  totalVenta : Int
deriving DecidableEq, Repr

/-- The persistent state the routes act on: the product collection and the
append-only sale collection (most recent sale first). -/
structure Store where
  productos : List Producto
  ventas : List Venta
deriving DecidableEq, Repr

/-- Model of `Producto.findById`: first document with the given `_id`. -/
def findById (id : Nat) (l : List Producto) : Option Producto :=
  l.find? (fun p => p._id = id)

/-- Model of a `Producto.findByIdAndUpdate` write: rewrite the first document
with the given `_id` by `f`; a missing id is a no-op (the source ignores
the returned document in the commit loop). -/
def updateById (id : Nat) (f : Producto → Producto) : List Producto → List Producto
  | [] => []
  | p :: ps => if p._id = id then f p :: ps else p :: updateById id f ps

/-- Responses of `POST /ventas/finalizar`, one constructor per `return`
site of the route, carrying exactly the data the JSON payload depends on. -/
inductive FinalizarResp where
  /-- Status 400, `El carrito está vacío.` -/
  | emptyCart
  /-- Status 404, `Producto con ID (id) no encontrado.` -/
  | notFound (id : Nat)
  /-- Status 400, `Stock insuficiente para (nombre). Solo hay (disponible) unidades.` -/
  | insufficient (nombre : String) (disponible : Int)
  /-- Status 500, `Error al ejecutar la transacción de venta.` (after `abortTransaction`) -/
  | txError
  /-- Success payload `(success: true, message)` -/
  | ok (message : String)
deriving DecidableEq, Repr

/-- The success message of the cart checkout:
`Venta finalizada con éxito por $(totalVenta.toFixed(2))`; totals are
integers in this model, so `toFixed(2)` renders as `".00"`. -/
def mensajeVenta (totalVenta : Int) : String :=
  "Venta finalizada con éxito por $" ++ toString totalVenta ++ ".00"

/-- The per-line check of the validation loop of `/ventas/finalizar`:
`findById`, then the `!producto` test, then `producto.cantidad < item.cantidad`.
Returns the error response the route would send for this line, if any. -/
def lineError (prods : List Producto) (item : CartItem) : Option FinalizarResp :=
  match findById item.id prods with
  | none => some (.notFound item.id)
  | some producto =>
      if producto.cantidad < item.cantidad then
        some (.insufficient producto.nombre producto.cantidad)
      else
        none

/-- The validation pass of `/ventas/finalizar`: walk the cart in order,
abort with the first failing line's error, otherwise accumulate
`productosVendidos` (in cart order) and `totalVenta`. -/
def validarVenta (prods : List Producto) : List CartItem →
    Except FinalizarResp (List ItemVendido × Int)
  | [] => .ok ([], 0)
  | item :: rest =>
    match findById item.id prods with
    | none => .error (.notFound item.id)
    | some producto =>
      if producto.cantidad < item.cantidad then
        .error (.insufficient producto.nombre producto.cantidad)
      else
        match validarVenta prods rest with
        | .error e => .error e
        | .ok (items, tot) =>
            .ok ({ productoID := producto._id
                   nombre := producto.nombre
                   precioUnitario := producto.precio
                   cantidad := item.cantidad
                   subtotal := item.cantidad * producto.precio } :: items,
                 item.cantidad * producto.precio + tot)

/-- The commit loop of `/ventas/finalizar`: for each cart line, an
unconditional `findByIdAndUpdate(item.id, ($inc: (cantidad: -item.cantidad)))`. -/
def applyDecrementos (cart : List CartItem) (prods : List Producto) : List Producto :=
  cart.foldl
    (fun acc item =>
      updateById item.id (fun p => { p with cantidad := p.cantidad - item.cantidad }) acc)
    prods

/-- Route `POST /ventas/finalizar`. `commitFails = true` models any write inside
the mongoose session transaction throwing; the route then aborts the
transaction, so no write of the commit phase is applied. -/
def finalizarVenta (commitFails : Bool) (cart : List CartItem) (s : Store) :
    FinalizarResp × Store :=
  if cart.isEmpty then (.emptyCart, s)
  else
    match validarVenta s.productos cart with
    | .error e => (e, s)
    | .ok (productosVendidos, totalVenta) =>
      if commitFails then (.txError, s)
      else
        (.ok (mensajeVenta totalVenta),
         { productos := applyDecrementos cart s.productos
           ventas := { productosVendidos := productosVendidos
                       totalVenta := totalVenta } :: s.ventas })

/-- Which of the quick sale's two independent writes throws, if any.
`ventaSave` is `nuevaVenta.save()` failing (nothing persisted);
`productoSave` is `producto.save()` failing after `nuevaVenta.save()`
already succeeded (the sale document is persisted, the stock is not). -/
inductive QSFault where
  | none
  | ventaSave
  | productoSave
deriving DecidableEq, Repr

/-- Responses of `POST /productos/vender/:id`, one constructor per
`return`/`res.json` site, carrying the data the JSON payload depends on. -/
inductive VenderResp where
  /-- Status 400, `La cantidad debe ser un número mayor a cero.` -/
  | badQty
  /-- Status 404, `Producto no encontrado.` -/
  | notFound
  /-- Status 400, `Stock insuficiente. Solo hay (disponible) unidades.` -/
  | insufficient (disponible : Int)
  /-- Status 500, `Error interno del servidor. ...` -/
  | serverError
  /-- Success payload `(success: true, mensaje, productoActualizado)` -/
  | ok (mensaje : String) (productoActualizado : Producto)
deriving DecidableEq, Repr

/-- The success message of the quick sale:
`Venta de (cantidadVenta) unidades registrada.` -/
def mensajeVender (cantidadVenta : Int) : String :=
  "Venta de " ++ toString cantidadVenta ++ " unidades registrada."

/-- Route `POST /productos/vender/:id`: validate the quantity, fetch the
product, check stock, then `nuevaVenta.save()` followed by
`producto.save()` — two separate writes with no session. -/
def venderProducto (id : Nat) (cantidadVenta : Int) (fault : QSFault) (s : Store) :
    VenderResp × Store :=
  if cantidadVenta ≤ 0 then (.badQty, s)
  else
    match findById id s.productos with
    | Option.none => (.notFound, s)
    | some producto =>
      if producto.cantidad < cantidadVenta then
        (.insufficient producto.cantidad, s)
      else
        let totalVenta := producto.precio * cantidadVenta
        let nuevaVenta : Venta :=
          { productosVendidos :=
              [{ productoID := producto._id
                 nombre := producto.nombre
                 precioUnitario := producto.precio
                 cantidad := cantidadVenta
                 subtotal := totalVenta }]
            totalVenta := totalVenta }
        match fault with
        | .ventaSave => (.serverError, s)
        | .productoSave => (.serverError, { s with ventas := nuevaVenta :: s.ventas })
        | .none =>
          let productoActualizado :=
            { producto with cantidad := producto.cantidad - cantidadVenta }
          (.ok (mensajeVender cantidadVenta) productoActualizado,
           { productos :=
               updateById id (fun p => { p with cantidad := p.cantidad - cantidadVenta })
                 s.productos
             ventas := nuevaVenta :: s.ventas })

/-- The `$group` stage of `calcularExistenciasPorCategoria`: the distinct
`categoriaID` keys occurring among the products. -/
def groupKeys (productos : List Producto) : List Nat :=
  (productos.map (fun p => p.categoriaID)).dedup

/-- Field `totalExistencias` of one `$group` bucket: the sum of `cantidad` over
the products whose `categoriaID` is `k`. -/
def totalExistencias (k : Nat) (productos : List Producto) : Int :=
  ((productos.filter (fun p => p.categoriaID = k)).map (fun p => p.cantidad)).sum

/-- Model of `calcularExistenciasPorCategoria`: `$group` by `categoriaID` summing
`cantidad`, `$lookup` of the category, `$unwind` (which drops buckets whose
lookup found no category), `$project` to `(nombre, totalExistencias)`. -/
def calcularExistenciasPorCategoria (productos : List Producto)
    (categorias : List Categoria) : List (String × Int) :=
  (groupKeys productos).filterMap (fun k =>
    match categorias.find? (fun c => c._id = k) with
    | Option.none => Option.none
    | some c => some (c.nombre, totalExistencias k productos))

/-- The `existenciasMap` reduce of the home route: fold the aggregation
rows into an object keyed by `nombre` (a later row overwrites an earlier
one with the same name). Reading key `nombre` of that object is finding
the last row with that name. -/
def existenciasLookup (rows : List (String × Int)) (nombre : String) : Option Int :=
  (rows.reverse.find? (fun r => r.1 = nombre)).map (fun r => r.2)

/-! Concrete fixtures used by counterexamples and witnesses. -/

/-- A product with stock 5 and unit price 2. -/
def prodA : Producto :=
  { _id := 1, nombre := "A", precio := 2, cantidad := 5, categoriaID := 10 }

/-- A second product with the same price as `prodA` but a different id and name. -/
def prodB : Producto :=
  { _id := 2, nombre := "B", precio := 2, cantidad := 5, categoriaID := 10 }

/-- A store holding `prodA` and `prodB` and an empty sale ledger. -/
def store0 : Store := { productos := [prodA, prodB], ventas := [] }

/-- A cart with two lines for the same product id 1, quantities 3 and 3. -/
def dupCart : List CartItem := [{ id := 1, cantidad := 3 }, { id := 1, cantidad := 3 }]

/-- Categories X (id 10) and Y (id 11). -/
def aggCats : List Categoria := [{ _id := 10, nombre := "X" }, { _id := 11, nombre := "Y" }]

/-- Products A (stock 5, category X), B (stock 3, category X) and
C (stock 2, category Y). -/
def aggProds : List Producto :=
  [{ _id := 1, nombre := "A", precio := 1, cantidad := 5, categoriaID := 10 },
   { _id := 2, nombre := "B", precio := 1, cantidad := 3, categoriaID := 10 },
   { _id := 3, nombre := "C", precio := 1, cantidad := 2, categoriaID := 11 }]

/-- Products A (stock 5, category X) and B (stock 4) whose category
reference 99 resolves to no category of `aggCats`. -/
def dangProds : List Producto :=
  [{ _id := 1, nombre := "A", precio := 1, cantidad := 5, categoriaID := 10 },
   { _id := 2, nombre := "B", precio := 1, cantidad := 4, categoriaID := 99 }]

/-- Membership in `groupKeys`: exactly the category ids some product carries. -/
lemma mem_groupKeys (productos : List Producto) (k : Nat) :
    k ∈ groupKeys productos ↔ ∃ p ∈ productos, p.categoriaID = k := by
  simp [groupKeys, List.mem_dedup]

/-- Row membership in the aggregation output: each row comes from a group
key whose category lookup succeeded, carrying that category's name and the
group's stock total. -/
lemma mem_calcular (productos : List Producto) (categorias : List Categoria)
    (r : String × Int) :
    r ∈ calcularExistenciasPorCategoria productos categorias ↔
      ∃ k, k ∈ groupKeys productos ∧
        ∃ c', categorias.find? (fun c => c._id = k) = some c' ∧
          r = (c'.nombre, totalExistencias k productos) := by
  rw [calcularExistenciasPorCategoria, List.mem_filterMap]
  constructor
  · rintro ⟨k, hk, hg⟩
    cases hfind : categorias.find? (fun c => c._id = k) with
    | none =>
      simp only [hfind] at hg
      cases hg
    | some c' =>
      simp only [hfind] at hg
      cases hg
      exact ⟨k, hk, c', hfind, rfl⟩
  · rintro ⟨k, hk, c', hfind, hr⟩
    refine ⟨k, hk, ?_⟩
    simp only [hfind]
    rw [hr]

/-- Filtering commutes with (last-occurrence) deduplication. -/
lemma dedup_filter_comm {α : Type} [DecidableEq α] (q : α → Bool) :
    ∀ l : List α, (l.filter q).dedup = l.dedup.filter q := by
  intro l
  induction l with
  | nil => rfl
  | cons x xs ih =>
    by_cases hx : q x
    · rw [List.filter_cons_of_pos hx]
      by_cases hmem : x ∈ xs
      · rw [List.dedup_cons_of_mem (List.mem_filter.mpr ⟨hmem, hx⟩),
          List.dedup_cons_of_mem hmem, ih]
      · have hnm : x ∉ xs.filter q := fun hmf => hmem (List.mem_filter.mp hmf).1
        rw [List.dedup_cons_of_not_mem hnm, List.dedup_cons_of_not_mem hmem,
          List.filter_cons_of_pos hx, ih]
    · rw [List.filter_cons_of_neg hx]
      by_cases hmem : x ∈ xs
      · rw [List.dedup_cons_of_mem hmem, ih]
      · rw [List.dedup_cons_of_not_mem hmem, List.filter_cons_of_neg hx, ih]

/-- A `filterMap` equals the `filterMap` of a filtered list when the
dropped elements map to `none` and the kept elements agree. -/
lemma filterMap_filter_eq {α β : Type} (g g' : α → Option β) (q : α → Bool)
    (hskip : ∀ a, q a = false → g a = Option.none)
    (hagree : ∀ a, q a = true → g a = g' a) :
    ∀ l : List α, l.filterMap g = (l.filter q).filterMap g' := by
  intro l
  induction l with
  | nil => rfl
  | cons x xs ih =>
    by_cases hx : q x
    · rw [List.filter_cons_of_pos hx, List.filterMap_cons, List.filterMap_cons,
        hagree x hx]
      cases hgx : g' x
      · simpa [hgx] using ih
      · simp only [hgx]
        rw [ih]
    · have hxf : q x = false := by simpa using hx
      rw [List.filter_cons_of_neg hx, List.filterMap_cons, hskip x hxf]
      simpa using ih

/-- Whether a quick-sale response is the success response. -/
def VenderResp.esExito : VenderResp → Bool
  | .ok _ _ => true
  | _ => false

/-- Whether a cart-checkout response is the success response. -/
def FinalizarResp.esExito : FinalizarResp → Bool
  | .ok _ => true
  | _ => false

/-- Total quantity a cart requests for one product id (summed over its
lines). -/
def cartQty (pid : Nat) (cart : List CartItem) : Int :=
  ((cart.filter (fun i => i.id = pid)).map (fun i => i.cantidad)).sum

/-- Unfolding of `findById` over a cons. -/
lemma findById_cons (i : Nat) (p : Producto) (l : List Producto) :
    findById i (p :: l) = if p._id = i then some p else findById i l := by
  by_cases h : p._id = i <;> simp [findById, List.find?, h]

/-- Unfolding of `updateById` over a cons. -/
lemma updateById_cons (j : Nat) (f : Producto → Producto) (p : Producto)
    (l : List Producto) :
    updateById j f (p :: l) = if p._id = j then f p :: l else p :: updateById j f l := by
  rfl

/-- Looking a product up after an id-preserving update of another (or the
same) id. -/
lemma findById_updateById (f : Producto → Producto) (hid : ∀ p, (f p)._id = p._id)
    (i j : Nat) (l : List Producto) :
    findById i (updateById j f l) =
      if i = j then (findById i l).map f else findById i l := by
  induction l with
  | nil => by_cases h : i = j <;> simp [findById, updateById, h]
  | cons p ps ih =>
    rw [updateById_cons]
    by_cases hpj : p._id = j
    · rw [if_pos hpj, findById_cons, findById_cons]
      by_cases hij : i = j
      · subst hij
        rw [if_pos ((hid p).trans hpj), if_pos rfl, if_pos hpj]
        rfl
      · have h1 : ¬ ((f p)._id = i) := by
          rw [hid p, hpj]; exact fun h => hij h.symm
        have h2 : ¬ (p._id = i) := by
          rw [hpj]; exact fun h => hij h.symm
        rw [if_neg h1, if_neg hij, if_neg h2]
    · rw [if_neg hpj, findById_cons]
      by_cases hpi : p._id = i
      · have hij : ¬ (i = j) := fun h => hpj (h ▸ hpi)
        rw [if_pos hpi, if_neg hij, findById_cons, if_pos hpi]
      · rw [if_neg hpi, ih]
        by_cases hij : i = j
        · rw [if_pos hij, if_pos hij, findById_cons, if_neg hpi]
        · rw [if_neg hij, if_neg hij, findById_cons, if_neg hpi]

/-- Stock after the commit loop: the product's quantity drops by exactly
the total quantity the cart requests for its id. -/
lemma findById_applyDecrementos (cart : List CartItem) (pid : Nat) :
    ∀ l : List Producto,
      findById pid (applyDecrementos cart l) =
        (findById pid l).map (fun p => { p with cantidad := p.cantidad - cartQty pid cart }) := by
  induction cart with
  | nil =>
    intro l
    cases h : findById pid l <;> simp [applyDecrementos, cartQty, h]
  | cons item rest ih =>
    intro l
    have step : applyDecrementos (item :: rest) l =
        applyDecrementos rest
          (updateById item.id (fun p => { p with cantidad := p.cantidad - item.cantidad }) l) := by
      simp [applyDecrementos]
    rw [step, ih]
    rw [findById_updateById (fun p => { p with cantidad := p.cantidad - item.cantidad })
      (fun p => rfl) pid item.id l]
    by_cases hpi : pid = item.id
    · have hq : cartQty pid (item :: rest) = item.cantidad + cartQty pid rest := by
        simp [cartQty, hpi.symm]
      rw [if_pos hpi]
      cases h : findById pid l
      · simp
      · simp [hq]
        omega
    · have hq : cartQty pid (item :: rest) = cartQty pid rest := by
        have hne : ¬ (item.id = pid) := fun h => hpi h.symm
        simp [cartQty, hne]
      rw [if_neg hpi, hq]

/-- Validation that reaches the end produces a total equal to the sum of
the item subtotals, each subtotal being quantity times snapshotted unit
price, with one item per cart line in order. -/
lemma validarVenta_ok_shape (prods : List Producto) :
    ∀ (cart : List CartItem) (items : List ItemVendido) (tot : Int),
      validarVenta prods cart = .ok (items, tot) →
      tot = (items.map (fun i => i.subtotal)).sum ∧
      ∀ it ∈ items, it.subtotal = it.cantidad * it.precioUnitario := by
  intro cart
  induction cart with
  | nil =>
    intro items tot h
    simp [validarVenta] at h
    obtain ⟨h1, h2⟩ := h
    subst h1; subst h2
    simp
  | cons item rest ih =>
    intro items tot h
    rw [validarVenta] at h
    split at h
    · cases h
    · split at h
      · cases h
      · split at h
        · cases h
        · rename_i producto _ _ items' tot' hrec
          simp only [Except.ok.injEq, Prod.mk.injEq] at h
          obtain ⟨h1, h2⟩ := h
          obtain ⟨ihs, ihm⟩ := ih items' tot' hrec
          subst h1; subst h2
          constructor
          · simp [ihs]
          · intro it hit
            rcases List.mem_cons.mp hit with h | h
            · subst h; rfl
            · exact ihm it h

/-- A line with no `lineError` has an existing product with enough
stock. -/
lemma lineError_none (prods : List Producto) (item : CartItem)
    (h : lineError prods item = Option.none) :
    ∃ p, findById item.id prods = some p ∧ item.cantidad ≤ p.cantidad := by
  rw [lineError] at h
  cases hf : findById item.id prods with
  | none =>
    simp only [hf] at h
    cases h
  | some producto =>
    simp only [hf] at h
    by_cases hlt : producto.cantidad < item.cantidad
    · rw [if_pos hlt] at h; cases h
    · exact ⟨producto, rfl, not_lt.mp hlt⟩

/-- Validation succeeds when no line fails its per-line check. -/
lemma validarVenta_ok_of (prods : List Producto) :
    ∀ cart : List CartItem,
      (∀ item ∈ cart, lineError prods item = Option.none) →
      ∃ items tot, validarVenta prods cart = .ok (items, tot) := by
  intro cart
  induction cart with
  | nil => intro _; exact ⟨[], 0, rfl⟩
  | cons item rest ih =>
    intro hall
    obtain ⟨p, hp, hle⟩ := lineError_none prods item (hall item (List.mem_cons_self _ _))
    obtain ⟨items, tot, hrec⟩ := ih (fun a ha => hall a (List.mem_cons_of_mem _ ha))
    refine ⟨{ productoID := p._id, nombre := p.nombre, precioUnitario := p.precio,
              cantidad := item.cantidad,
              subtotal := item.cantidad * p.precio } :: items,
           item.cantidad * p.precio + tot, ?_⟩
    rw [validarVenta]
    simp only [hp, hrec]
    rw [if_neg (not_lt.mpr hle)]

/-- Validation stops at the first failing line with that line's error. -/
lemma validarVenta_firstError (prods : List Producto) (item : CartItem)
    (e : FinalizarResp) (post : List CartItem) :
    ∀ pre : List CartItem,
      (∀ a ∈ pre, lineError prods a = Option.none) →
      lineError prods item = some e →
      validarVenta prods (pre ++ item :: post) = .error e := by
  intro pre
  induction pre with
  | nil =>
    intro _ hitem
    rw [List.nil_append, validarVenta]
    rw [lineError] at hitem
    cases hf : findById item.id prods with
    | none =>
      simp only [hf] at hitem ⊢
      cases hitem
      rfl
    | some producto =>
      simp only [hf] at hitem ⊢
      by_cases hlt : producto.cantidad < item.cantidad
      · rw [if_pos hlt] at hitem
        cases hitem
        rw [if_pos hlt]
      · rw [if_neg hlt] at hitem
        cases hitem
  | cons a pre ih =>
    intro hpre hitem
    have ha := hpre a (List.mem_cons_self _ _)
    rw [lineError] at ha
    rw [List.cons_append, validarVenta]
    cases hf : findById a.id prods with
    | none =>
      simp only [hf] at ha
      cases ha
    | some producto =>
      simp only [hf] at ha ⊢
      by_cases hlt : producto.cantidad < a.cantidad
      · rw [if_pos hlt] at ha
        cases ha
      · rw [if_neg hlt]
        simp only [ih (fun b hb => hpre b (List.mem_cons_of_mem _ hb)) hitem]

/-- A validation error is always a not-found or insufficient-stock error
(never the success or transaction-error response). -/
lemma validarVenta_error_shape (prods : List Producto) :
    ∀ (cart : List CartItem) (e : FinalizarResp),
      validarVenta prods cart = .error e →
      (∃ i, e = FinalizarResp.notFound i) ∨
      (∃ n d, e = FinalizarResp.insufficient n d) := by
  intro cart
  induction cart with
  | nil => intro e h; cases h
  | cons item rest ih =>
    intro e h
    rw [validarVenta] at h
    split at h
    · cases h
      exact Or.inl ⟨item.id, rfl⟩
    · split at h
      · cases h
        rename_i producto _ _
        exact Or.inr ⟨producto.nombre, producto.cantidad, rfl⟩
      · split at h
        · cases h
          rename_i hrec
          exact ih _ hrec
        · cases h

/-- Claim C2 (amended): the cart checkout's commit phase is all-or-nothing
— every run either leaves the store untouched or both applies every
decrement and appends the SaleRecord — while the quick sale's stock write,
when it fails, never applies any decrement even though the sale document
may already be persisted (the counterexample exhibits the orphaned
record). -/
theorem claim_C2_checkout_atomic_quick_sale_not :
    (∀ (commitFails : Bool) (cart : List CartItem) (s : Store),
      (finalizarVenta commitFails cart s).2 = s ∨
      ∃ v : Venta,
        (finalizarVenta commitFails cart s).2 =
          { productos := applyDecrementos cart s.productos, ventas := v :: s.ventas }) ∧
    (∀ (id : Nat) (q : Int) (s : Store),
      (venderProducto id q QSFault.productoSave s).2.productos = s.productos) := by
  constructor
  · intro commitFails cart s
    rw [finalizarVenta]
    by_cases hemp : cart.isEmpty
    · rw [if_pos hemp]; left; rfl
    · rw [if_neg hemp]
      cases hv : validarVenta s.productos cart with
      | error e => left; rfl
      | ok pair =>
        obtain ⟨items, tot⟩ := pair
        cases commitFails
        · right; exact ⟨{ productosVendidos := items, totalVenta := tot }, rfl⟩
        · left; rfl
  · intro id q s
    rw [venderProducto]
    by_cases hq : q ≤ 0
    · rw [if_pos hq]
    · rw [if_neg hq]
      cases hf : findById id s.productos with
      | none => simp only [hf]
      | some producto =>
        simp only [hf]
        by_cases hlt : producto.cantidad < q
        · rw [if_pos hlt]
        · rw [if_neg hlt]

/-- Claim C4: when the commit phase of a validated, non-empty cart
checkout fails, the route aborts the transaction and answers with the
transaction-error response — a value distinct from every domain-error
response — and the store is left exactly as it was. -/
theorem claim_C4_commit_failure_aborts (cart : List CartItem) (s : Store)
    (items : List ItemVendido) (tot : Int)
    (hne : cart ≠ [])
    (hval : validarVenta s.productos cart = .ok (items, tot)) :
    finalizarVenta true cart s = (FinalizarResp.txError, s) ∧
    (∀ i, FinalizarResp.txError ≠ FinalizarResp.notFound i) ∧
    (∀ n d, FinalizarResp.txError ≠ FinalizarResp.insufficient n d) ∧
    FinalizarResp.txError ≠ FinalizarResp.emptyCart := by
  have hemp : cart.isEmpty = false := by
    cases cart with
    | nil => exact absurd rfl hne
    | cons a l => rfl
  refine ⟨?_, fun i h => FinalizarResp.noConfusion h,
    fun n d h => FinalizarResp.noConfusion h, fun h => FinalizarResp.noConfusion h⟩
  rw [finalizarVenta]
  simp only [hemp, hval]
  rfl

/-- Claim C4 witness: a concrete validated cart whose commit fails leaves
`store0` untouched and yields the transaction-error response. -/
theorem claim_C4_witness :
    ([⟨1, 2⟩] : List CartItem) ≠ [] ∧
    validarVenta store0.productos [⟨1, 2⟩] =
      .ok ([{ productoID := 1, nombre := "A", precioUnitario := 2,
              cantidad := 2, subtotal := 4 }], 4) ∧
    finalizarVenta true [⟨1, 2⟩] store0 = (FinalizarResp.txError, store0) :=
  ⟨by decide, by rfl,
    (claim_C4_commit_failure_aborts [⟨1, 2⟩] store0
      [{ productoID := 1, nombre := "A", precioUnitario := 2,
         cantidad := 2, subtotal := 4 }] 4 (by decide) (by rfl)).1⟩

/-- Claim C5 (amended): when the cart has a failing line — its product
missing or its quantity above that product's stock — the checkout answers
with the error of the first such line (a not-found error carrying the id,
or an insufficient-stock error carrying the product's name and available
stock; the requested quantity is not part of the response) and the store
is left exactly as it was. -/
theorem claim_C5_first_error_no_side_effects (commitFails : Bool) (s : Store)
    (pre post : List CartItem) (item : CartItem) (e : FinalizarResp)
    (hpre : ∀ a ∈ pre, lineError s.productos a = Option.none)
    (hitem : lineError s.productos item = some e) :
    finalizarVenta commitFails (pre ++ item :: post) s = (e, s) ∧
    ((∃ i, e = FinalizarResp.notFound i) ∨
     (∃ n d, e = FinalizarResp.insufficient n d)) := by
  have hval := validarVenta_firstError s.productos item e post pre hpre hitem
  constructor
  · have hemp : (pre ++ item :: post).isEmpty = false := by
      cases pre <;> rfl
    rw [finalizarVenta]
    simp only [hemp, hval]
    rfl
  · rw [lineError] at hitem
    cases hf : findById item.id s.productos with
    | none =>
      simp only [hf] at hitem
      cases hitem
      exact Or.inl ⟨item.id, rfl⟩
    | some producto =>
      simp only [hf] at hitem
      by_cases hlt : producto.cantidad < item.cantidad
      · rw [if_pos hlt] at hitem
        cases hitem
        exact Or.inr ⟨producto.nombre, producto.cantidad, rfl⟩
      · rw [if_neg hlt] at hitem
        cases hitem

/-- Claim C5 witness: a one-line cart for the missing product id 3 fails
with the not-found error for id 3 and leaves `store0` unchanged. -/
theorem claim_C5_witness :
    (∀ a ∈ ([] : List CartItem), lineError store0.productos a = Option.none) ∧
    lineError store0.productos ⟨3, 1⟩ = some (FinalizarResp.notFound 3) ∧
    finalizarVenta false ([] ++ ⟨3, 1⟩ :: []) store0 = (FinalizarResp.notFound 3, store0) :=
  ⟨by decide, by decide,
    (claim_C5_first_error_no_side_effects false store0 [] [] ⟨3, 1⟩
      (FinalizarResp.notFound 3) (by decide) (by decide)).1⟩

/-- Claim C6: a non-empty cart in which every line's product exists and
has stock at least the requested quantity checks out successfully: every
product's stock drops by exactly the total quantity the cart requests for
it, and a SaleRecord whose total is the sum of its line subtotals — each
subtotal being quantity times the snapshotted unit price — is appended to
the ledger. -/
theorem claim_C6_valid_cart_commits (s : Store) (cart : List CartItem)
    (hne : cart ≠ [])
    (hok : ∀ item ∈ cart, lineError s.productos item = Option.none) :
    ∃ (items : List ItemVendido) (tot : Int),
      finalizarVenta false cart s =
        (FinalizarResp.ok (mensajeVenta tot),
         { productos := applyDecrementos cart s.productos,
           ventas := { productosVendidos := items, totalVenta := tot } :: s.ventas }) ∧
      tot = (items.map (fun i => i.subtotal)).sum ∧
      (∀ it ∈ items, it.subtotal = it.cantidad * it.precioUnitario) ∧
      (∀ pid, findById pid (applyDecrementos cart s.productos) =
        (findById pid s.productos).map
          (fun p => { p with cantidad := p.cantidad - cartQty pid cart })) := by
  obtain ⟨items, tot, hval⟩ := validarVenta_ok_of s.productos cart hok
  obtain ⟨hsum, hsub⟩ := validarVenta_ok_shape s.productos cart items tot hval
  refine ⟨items, tot, ?_, hsum, hsub,
    fun pid => findById_applyDecrementos cart pid s.productos⟩
  have hemp : cart.isEmpty = false := by
    cases cart with
    | nil => exact absurd rfl hne
    | cons a l => rfl
  rw [finalizarVenta]
  simp only [hemp, hval]
  rfl

/-- Claim C6 witness: checking out two units of product 1 and one unit of
product 2 against `store0` commits with the predicted stock drops and an
appended SaleRecord whose total is the sum of its subtotals. -/
theorem claim_C6_witness :
    ∃ (items : List ItemVendido) (tot : Int),
      finalizarVenta false [⟨1, 2⟩, ⟨2, 1⟩] store0 =
        (FinalizarResp.ok (mensajeVenta tot),
         { productos := applyDecrementos [⟨1, 2⟩, ⟨2, 1⟩] store0.productos,
           ventas := { productosVendidos := items, totalVenta := tot } :: store0.ventas }) ∧
      tot = (items.map (fun i => i.subtotal)).sum ∧
      (∀ it ∈ items, it.subtotal = it.cantidad * it.precioUnitario) ∧
      (∀ pid, findById pid (applyDecrementos [⟨1, 2⟩, ⟨2, 1⟩] store0.productos) =
        (findById pid store0.productos).map
          (fun p => { p with cantidad := p.cantidad - cartQty pid [⟨1, 2⟩, ⟨2, 1⟩] })) :=
  claim_C6_valid_cart_commits store0 [⟨1, 2⟩, ⟨2, 1⟩] (by decide) (by decide)

/-- Claim C7 (amended): on success the cart checkout returns only a
success flag and a message rendering the total — the committed SaleRecord
is appended to the ledger but not returned — and the quick sale returns a
message plus the updated product document (the product as stored after the
decrement), not the SaleRecord. -/
theorem claim_C7_success_payloads :
    (∀ (commitFails : Bool) (cart : List CartItem) (s : Store) (m : String),
      (finalizarVenta commitFails cart s).1 = FinalizarResp.ok m →
      ∃ items tot, m = mensajeVenta tot ∧
        (finalizarVenta commitFails cart s).2.ventas =
          { productosVendidos := items, totalVenta := tot } :: s.ventas) ∧
    (∀ (id : Nat) (q : Int) (fault : QSFault) (s : Store) (m : String) (pa : Producto),
      (venderProducto id q fault s).1 = VenderResp.ok m pa →
      m = mensajeVender q ∧
      findById id (venderProducto id q fault s).2.productos = some pa) := by
  constructor
  · intro commitFails cart s m
    rw [finalizarVenta]
    by_cases hemp : cart.isEmpty
    · rw [if_pos hemp]
      intro h
      exact absurd h (fun h => FinalizarResp.noConfusion h)
    · rw [if_neg hemp]
      cases hval : validarVenta s.productos cart with
      | error e =>
        simp only
        intro h
        rcases validarVenta_error_shape s.productos cart e hval with ⟨i, he⟩ | ⟨n, d, he⟩ <;>
          subst he <;> cases h
      | ok pair =>
        obtain ⟨items, tot⟩ := pair
        cases commitFails
        · simp only
          intro h
          have h' : FinalizarResp.ok (mensajeVenta tot) = FinalizarResp.ok m := h
          injection h' with h1
          exact ⟨items, tot, h1.symm, rfl⟩
        · simp only
          intro h
          exact absurd h (fun h => FinalizarResp.noConfusion h)
  · intro id q fault s m pa
    rw [venderProducto]
    by_cases hq : q ≤ 0
    · rw [if_pos hq]
      intro h
      exact absurd h (fun h => VenderResp.noConfusion h)
    · rw [if_neg hq]
      cases hf : findById id s.productos with
      | none =>
        intro h
        exact absurd h (fun h => VenderResp.noConfusion h)
      | some producto =>
        simp only
        by_cases hlt : producto.cantidad < q
        · rw [if_pos hlt]
          intro h
          exact absurd h (fun h => VenderResp.noConfusion h)
        · rw [if_neg hlt]
          cases fault with
          | ventaSave =>
            intro h
            exact absurd h (fun h => VenderResp.noConfusion h)
          | productoSave =>
            intro h
            exact absurd h (fun h => VenderResp.noConfusion h)
          | none =>
            intro h
            have h' : VenderResp.ok (mensajeVender q)
                { producto with cantidad := producto.cantidad - q } =
                VenderResp.ok m pa := h
            injection h' with h1 h2
            refine ⟨h1.symm, ?_⟩
            show findById id
              (updateById id (fun p => { p with cantidad := p.cantidad - q }) s.productos) =
              some pa
            rw [findById_updateById (fun p => { p with cantidad := p.cantidad - q })
              (fun p => rfl) id id s.productos, if_pos rfl, hf, ← h2]
            rfl

/-- Claim C7 witness: a concrete successful checkout of one unit of
product 1 yields the success message for total 2 and appends the sale. -/
theorem claim_C7_witness :
    (finalizarVenta false [⟨1, 1⟩] store0).1 = FinalizarResp.ok (mensajeVenta 2) ∧
    ∃ items tot, mensajeVenta 2 = mensajeVenta tot ∧
      (finalizarVenta false [⟨1, 1⟩] store0).2.ventas =
        { productosVendidos := items, totalVenta := tot } :: store0.ventas :=
  ⟨by decide,
    claim_C7_success_payloads.1 false [⟨1, 1⟩] store0 (mensajeVenta 2) (by decide)⟩

/-- Claim C8 (amended): for every positive quantity and fault-free run,
the quick sale and the checkout of the one-line cart with the same product
id and quantity agree on success versus failure and produce the same final
store (same stocks, same ledger); their response payloads differ in shape,
and for non-positive quantities the two flows disagree (see the
counterexample). -/
theorem claim_C8_positive_qty_equiv (id : Nat) (q : Int) (s : Store) (hq : 0 < q) :
    (venderProducto id q QSFault.none s).2 = (finalizarVenta false [⟨id, q⟩] s).2 ∧
    (venderProducto id q QSFault.none s).1.esExito =
      (finalizarVenta false [⟨id, q⟩] s).1.esExito := by
  have hq' : ¬ q ≤ 0 := not_le.mpr hq
  cases hf : findById id s.productos with
  | none =>
    simp [venderProducto, finalizarVenta, validarVenta, hq', hf,
      VenderResp.esExito, FinalizarResp.esExito]
  | some producto =>
    by_cases hlt : producto.cantidad < q
    · simp [venderProducto, finalizarVenta, validarVenta, hq', hf, hlt,
        VenderResp.esExito, FinalizarResp.esExito]
    · simp [venderProducto, finalizarVenta, validarVenta, applyDecrementos, hq', hf, hlt,
        VenderResp.esExito, FinalizarResp.esExito, mul_comm]

/-- Claim C8 witness: at quantity 2 on product 1 the quick sale and the
one-line checkout produce the same final store and both succeed. -/
theorem claim_C8_witness :
    (0 : Int) < 2 ∧
    (venderProducto 1 2 QSFault.none store0).2 = (finalizarVenta false [⟨1, 2⟩] store0).2 ∧
    (venderProducto 1 2 QSFault.none store0).1.esExito =
      (finalizarVenta false [⟨1, 2⟩] store0).1.esExito :=
  ⟨by decide,
    (claim_C8_positive_qty_equiv 1 2 store0 (by decide)).1,
    (claim_C8_positive_qty_equiv 1 2 store0 (by decide)).2⟩

/-- Claim C1: the claim says a cart with two lines for the same product with
quantities q1, q2 succeeds exactly when q1 + q2 is at most the product's
stock. The code checks each duplicate line independently against the same
stock snapshot and never against the sum: with stock 5 and quantities 3 and
3, every per-line check passes, the checkout succeeds (commits a sale of
total 12), yet 3 + 3 exceeds 5 — refuting the claim as stated. -/
theorem claim_C1_dup_lines_not_aggregated :
    (∀ item ∈ dupCart, lineError store0.productos item = Option.none) ∧
    prodA.cantidad < ((dupCart.map (fun i => i.cantidad)).sum) ∧
    (finalizarVenta false dupCart store0).1 = FinalizarResp.ok (mensajeVenta 12) := by
  decide

/-- Claim C3: the claim says each commit-time decrement atomically checks
`stock ≥ quantity` and subtracts only if the check holds, so stock never
goes negative. The commit loop's `$inc` is unconditional: checking out the
duplicate-line cart (two lines of 3 against stock 5) drives the product's
stock to -1, contradicting the `min: 0` declaration of the schema. -/
theorem claim_C3_stock_goes_negative :
    (finalizarVenta false dupCart store0).1 = FinalizarResp.ok (mensajeVenta 12) ∧
    (findById 1 (finalizarVenta false dupCart store0).2.productos).map
      (fun p => p.cantidad) = some (-1) := by
  decide

/-- Claim C2 counterexample: the quick sale persists the sale document and
the stock decrement as two independent writes; when `producto.save()` fails
after `nuevaVenta.save()` succeeded, the reached state holds a SaleRecord
whose stock decrement was never applied — refuting the two-way atomicity
invariant as stated. -/
theorem claim_C2_cex_quick_sale_orphan_record :
    (venderProducto 1 2 QSFault.productoSave store0).2.ventas =
      [{ productosVendidos := [{ productoID := 1, nombre := "A", precioUnitario := 2,
                                 cantidad := 2, subtotal := 4 }],
         totalVenta := 4 }] ∧
    (venderProducto 1 2 QSFault.productoSave store0).2.productos = store0.productos := by
  decide

/-- Claim C5 counterexample: the claim says the insufficient-stock error
carries available-versus-requested detail. The route's error depends only
on the product's name and available stock: requesting 7 and requesting 9
(both above stock 5) produce the very same error response, so the response
does not determine the requested quantity. -/
theorem claim_C5_cex_requested_not_in_error :
    (finalizarVenta false [{ id := 1, cantidad := 7 }] store0).1 =
      (finalizarVenta false [{ id := 1, cantidad := 9 }] store0).1 ∧
    (7 : Int) ≠ 9 := by
  decide

/-- Claim C7 counterexample: the claim says a successful checkout returns
the committed SaleRecord itself. Two checkouts committing different
SaleRecords (selling product 1 versus product 2, same price) return the
very same response value, so the response cannot contain the record. -/
theorem claim_C7_cex_response_not_the_record :
    (finalizarVenta false [{ id := 1, cantidad := 1 }] store0).1 =
      (finalizarVenta false [{ id := 2, cantidad := 1 }] store0).1 ∧
    (finalizarVenta false [{ id := 1, cantidad := 1 }] store0).2.ventas.head? ≠
      (finalizarVenta false [{ id := 2, cantidad := 1 }] store0).2.ventas.head? := by
  decide

/-- Claim C8 counterexample: the claim says a quick sale is equivalent to a
singleton-cart checkout for every quantity. At quantity 0 the quick sale
rejects the request and leaves the store unchanged, while the cart checkout
accepts it and appends a zero-quantity SaleRecord. -/
theorem claim_C8_cex_zero_quantity :
    venderProducto 1 0 QSFault.none store0 = (VenderResp.badQty, store0) ∧
    (finalizarVenta false [{ id := 1, cantidad := 0 }] store0).1 =
      FinalizarResp.ok (mensajeVenta 0) ∧
    (finalizarVenta false [{ id := 1, cantidad := 0 }] store0).2 ≠ store0 := by
  decide

/-- Claim C9: with distinct category ids and distinct category names, the
stock-by-category map sends a category's display name to the sum of the
stock quantities of the products referencing that category, and has no
entry for that name when the category has no products (omitted, not
zero-filled). -/
theorem claim_C9_stock_by_category (productos : List Producto)
    (categorias : List Categoria)
    (hids : (categorias.map (fun c => c._id)).Nodup)
    (hnoms : (categorias.map (fun c => c.nombre)).Nodup)
    (c : Categoria) (hc : c ∈ categorias) :
    existenciasLookup (calcularExistenciasPorCategoria productos categorias) c.nombre =
      if productos.any (fun p => p.categoriaID = c._id)
      then some (totalExistencias c._id productos)
      else none := by
  have idInj := List.inj_on_of_nodup_map hids
  have nomInj := List.inj_on_of_nodup_map hnoms
  have hrow : ∀ r ∈ calcularExistenciasPorCategoria productos categorias,
      r.1 = c.nombre →
      r = (c.nombre, totalExistencias c._id productos) ∧
      ∃ p ∈ productos, p.categoriaID = c._id := by
    intro r hr hn
    obtain ⟨k, hk, c', hfind, hre⟩ := (mem_calcular productos categorias r).mp hr
    have hc'mem : c' ∈ categorias := List.mem_of_find?_eq_some hfind
    have hkid0 := List.find?_some hfind
    have hkid : c'._id = k := by simpa using hkid0
    have hnm : c'.nombre = c.nombre := by rw [hre] at hn; simpa using hn
    have hcc : c' = c := nomInj hc'mem hc hnm
    have hkc : k = c._id := by rw [← hkid, hcc]
    subst hkc
    obtain ⟨p, hp, hpk⟩ := (mem_groupKeys productos c._id).mp hk
    refine ⟨?_, p, hp, hpk⟩
    rw [hre, hcc]
  by_cases hex : productos.any (fun p => p.categoriaID = c._id)
  · rw [if_pos hex]
    have hkmem : c._id ∈ groupKeys productos := by
      rw [mem_groupKeys]
      simpa [List.any_eq_true] using hex
    have hsome : (categorias.find? (fun x => x._id = c._id)).isSome :=
      List.find?_isSome.mpr ⟨c, hc, by simp⟩
    obtain ⟨c', hfind⟩ := Option.isSome_iff_exists.mp hsome
    have hc'mem : c' ∈ categorias := List.mem_of_find?_eq_some hfind
    have hcid0 := List.find?_some hfind
    have hcid : c'._id = c._id := by simpa using hcid0
    have hcc : c' = c := idInj hc'mem hc hcid
    subst hcc
    have hrmem : (c'.nombre, totalExistencias c'._id productos) ∈
        calcularExistenciasPorCategoria productos categorias :=
      (mem_calcular productos categorias _).mpr ⟨c'._id, hkmem, c', hfind, rfl⟩
    rw [existenciasLookup]
    have hsome2 : ((calcularExistenciasPorCategoria productos categorias).reverse.find?
        (fun r => r.1 = c'.nombre)).isSome :=
      List.find?_isSome.mpr ⟨_, List.mem_reverse.mpr hrmem, by simp⟩
    obtain ⟨r, hfr⟩ := Option.isSome_iff_exists.mp hsome2
    have hrmem' : r ∈ calcularExistenciasPorCategoria productos categorias :=
      List.mem_reverse.mp (List.mem_of_find?_eq_some hfr)
    have hrn0 := List.find?_some hfr
    have hrn : r.1 = c'.nombre := by simpa using hrn0
    obtain ⟨hre, -⟩ := hrow r hrmem' hrn
    rw [hfr, hre]
    rfl
  · rw [if_neg hex]
    rw [existenciasLookup]
    have hnone : (calcularExistenciasPorCategoria productos categorias).reverse.find?
        (fun r => r.1 = c.nombre) = none := by
      rw [List.find?_eq_none]
      intro r hr
      simp only [decide_eq_true_eq]
      intro hn
      obtain ⟨-, p, hp, hpc⟩ := hrow r (List.mem_reverse.mp hr) hn
      exact absurd (List.any_eq_true.mpr ⟨p, hp, by simp [hpc]⟩) hex
    rw [hnone]
    rfl

/-- Claim C9 witness: with products A (5, X), B (3, X), C (2, Y) the map
sends X to 8 and Y to 2. -/
theorem claim_C9_witness :
    existenciasLookup (calcularExistenciasPorCategoria aggProds aggCats) "X" = some 8 ∧
    existenciasLookup (calcularExistenciasPorCategoria aggProds aggCats) "Y" = some 2 := by
  have hx := claim_C9_stock_by_category aggProds aggCats (by decide) (by decide)
    { _id := 10, nombre := "X" } (by decide)
  have hy := claim_C9_stock_by_category aggProds aggCats (by decide) (by decide)
    { _id := 11, nombre := "Y" } (by decide)
  exact ⟨hx.trans (by decide), hy.trans (by decide)⟩

/-- Claim C10: the stock-by-category aggregation silently drops every
product whose category reference resolves to no category — the output over
all products equals the output over only the resolvable products — and the
sum of the returned totals can therefore be strictly below the total stock,
as the concrete store with a dangling reference shows. -/
theorem claim_C10_unresolved_refs_dropped :
    (∀ (productos : List Producto) (categorias : List Categoria),
      calcularExistenciasPorCategoria productos categorias =
        calcularExistenciasPorCategoria
          (productos.filter (fun p => categorias.any (fun c => c._id = p.categoriaID)))
          categorias) ∧
    ((calcularExistenciasPorCategoria dangProds aggCats).map (fun r => r.2)).sum <
      (dangProds.map (fun p => p.cantidad)).sum := by
  refine ⟨?_, by decide⟩
  intro productos categorias
  have hkeys : groupKeys
      (productos.filter (fun p => categorias.any (fun c => c._id = p.categoriaID))) =
      (groupKeys productos).filter (fun k => categorias.any (fun c => c._id = k)) := by
    rw [groupKeys, groupKeys]
    rw [show (fun p => categorias.any (fun c => c._id = p.categoriaID)) =
      ((fun k => categorias.any (fun c => c._id = k)) ∘ (fun p : Producto => p.categoriaID))
      from rfl]
    rw [← List.filter_map]
    exact dedup_filter_comm _ _
  have htot : ∀ k, (fun k => categorias.any (fun c => c._id = k)) k = true →
      totalExistencias k
        (productos.filter (fun p => categorias.any (fun c => c._id = p.categoriaID))) =
      totalExistencias k productos := by
    intro k hk
    have hk' : categorias.any (fun c => decide (c._id = k)) = true := hk
    rw [totalExistencias, totalExistencias, List.filter_filter]
    have heq : productos.filter
        (fun a => decide (a.categoriaID = k) &&
          categorias.any (fun c => decide (c._id = a.categoriaID))) =
        productos.filter (fun p => decide (p.categoriaID = k)) := by
      apply List.filter_congr
      intro p _
      by_cases hpk : p.categoriaID = k
      · simp [hpk, hk']
      · simp [hpk]
    rw [heq]
  rw [calcularExistenciasPorCategoria, calcularExistenciasPorCategoria, hkeys]
  exact filterMap_filter_eq _ _ (fun k => categorias.any (fun c => c._id = k))
    (fun k hk => by
      have hk' : categorias.any (fun c => decide (c._id = k)) = false := hk
      have hfind : categorias.find? (fun c => c._id = k) = none := by
        rw [List.find?_eq_none]
        intro x hx
        simp only [decide_eq_true_eq]
        intro he
        have hany : categorias.any (fun c => decide (c._id = k)) = true :=
          List.any_eq_true.mpr ⟨x, hx, by simp [he]⟩
        rw [hk'] at hany
        cases hany
      simp only [hfind])
    (fun k hk => by
      cases hfind : categorias.find? (fun c => c._id = k) with
      | none => simp only [hfind]
      | some c' =>
        simp only [hfind]
        rw [htot k hk])
    (groupKeys productos)

end Inventario
